import Mathlib

/-!
Shallow embedding of the cart and order workflow of
`src/flipkart-clone/src/lib/supabase.ts`.

Modelling conventions:
- JavaScript numbers that hold prices and money amounts are modelled as `Rat`;
  quantities are modelled as `Int` (cart quantities are integers everywhere in
  the code and in the data model).
- The browser `localStorage` slot holding the serialized cart is modelled by
  the deserialized value it stores: a `List CartItem`.  The storage read path
  `getCartFromStorage` is additionally modelled explicitly, with `JSON.parse`
  abstracted as a fallible `parse` function (an exception is `none`).
- Remote tables (`products`, `orders`, `order_items`, `notifications`) are
  lists of rows inside a `StoreState`; a supabase insert error is modelled by
  a boolean failure flag on the state, and a `.single()` fetch error by the
  lookup returning `none`.
- A thrown JavaScript exception is an `Except.error`; `createOrder` returns
  its result together with the state reached when it throws, so that partial
  writes are observable.
- Structure fields of the TypeScript interfaces that no modelled operation
  reads (for example `Product.rating` or `Category.image_url`) are omitted.
-/

set_option autoImplicit false

namespace Flipkart

/-- Model of the `Product` interface: the fields read by the cart and order
workflow (`id`, `name`, `price`, `images`, `category_id`). -/
structure Product where
  id : String
  name : String
  price : Rat
  images : List String
  category_id : Option String
  deriving DecidableEq, Repr

/-- Model of the `Category` interface (fields read by `getProducts`). -/
structure Category where
  id : String
  name : String
  slug : String
  deriving DecidableEq, Repr

/-- Model of the `CartItem` interface.  In storage `product` is `none`; the
cart assembly step (`getCartItems`) attaches the product when it resolves. -/
structure CartItem where
  id : String
  product_id : String
  quantity : Int
  product : Option Product := none
  deriving DecidableEq, Repr

/-- Model of `getCartFromStorage`: `slot` is the raw content of the
`flipkart_cart` key (`none` when absent), `parse` abstracts `JSON.parse`
(`none` when parsing throws).  An absent or empty slot and any parse failure
give the empty cart; the function is total, so the read never raises. -/
def getCartFromStorage (parse : String → Option (List CartItem))
    (slot : Option String) : List CartItem :=
  match slot with
  | none => []
  | some stored =>
    if stored.isEmpty then []
    else
      match parse stored with
      | some cart => cart
      | none => []

/-- Helper for `addToCart`: the code finds the first cart entry with the given
`product_id` and mutates its quantity in place (`existingItem.quantity +=
quantity`).  This is the resulting list. -/
def bumpFirst (productId : String) (quantity : Int) : List CartItem → List CartItem
  | [] => []
  | item :: rest =>
    if item.product_id == productId then
      { item with quantity := item.quantity + quantity } :: rest
    else
      item :: bumpFirst productId quantity rest

/-- Model of `addToCart` acting on the stored cart list.  `newId` stands for
the freshly generated `Date.now().toString()` id used when a new entry is
pushed. -/
def addToCart (newId : String) (productId : String) (quantity : Int)
    (cart : List CartItem) : List CartItem :=
  if cart.any (fun item => item.product_id == productId) then
    bumpFirst productId quantity cart
  else
    cart ++ [{ id := newId, product_id := productId, quantity := quantity }]

/-- Helper for `updateCartItemQuantity`: the code finds the first cart entry
with the given `id` and overwrites its quantity in place. -/
def setFirstQuantity (itemId : String) (quantity : Int) : List CartItem → List CartItem
  | [] => []
  | item :: rest =>
    if item.id == itemId then
      { item with quantity := quantity } :: rest
    else
      item :: setFirstQuantity itemId quantity rest

/-- Model of `updateCartItemQuantity` acting on the stored cart list: when an
entry with `itemId` exists, a quantity of at most zero removes it (the code
filters the list) and a positive quantity overwrites it; when no entry
matches, the storage is left unchanged. -/
def updateCartItemQuantity (itemId : String) (quantity : Int)
    (cart : List CartItem) : List CartItem :=
  if cart.any (fun i => i.id == itemId) then
    if quantity ≤ 0 then
      cart.filter (fun i => i.id != itemId)
    else
      setFirstQuantity itemId quantity cart
  else
    cart

/-- Model of `removeFromCart` acting on the stored cart list. -/
def removeFromCart (itemId : String) (cart : List CartItem) : List CartItem :=
  cart.filter (fun i => i.id != itemId)

/-- Model of `clearCart`: persists an empty list. -/
def clearCart : List CartItem := []

/-- Model of the `ShippingAddress` interface. -/
structure ShippingAddress where
  name : String
  phone : String
  address : String
  city : String
  state : String
  pincode : String
  deriving DecidableEq, Repr

/-- Model of the `paymentDetails` argument of `createOrder`. -/
structure PaymentDetails where
  method : String
  status : String
  transactionId : Option String
  deriving DecidableEq, Repr

/-- Order status enumeration of the `Order` interface. -/
inductive OrderStatus where
  | pending | processing | shipped | delivered | cancelled
  deriving DecidableEq, Repr

/-- Model of the `Order` interface: the row `createOrder` inserts into the
`orders` table, together with the database-assigned `id` and `created_at`
returned by `.select().single()`. -/
structure Order where
  id : String
  created_at : String
  order_number : String
  shipping_name : String
  shipping_phone : String
  shipping_address : String
  shipping_city : String
  shipping_state : String
  shipping_pincode : String
  subtotal : Rat
  shipping_cost : Rat
  total : Rat
  status : OrderStatus
  payment_method : String
  payment_status : String
  transaction_id : Option String
  deriving DecidableEq, Repr

/-- Model of the `OrderItem` row payload inserted into `order_items` (the
database-assigned `id` is omitted: the code never reads it back). -/
structure OrderItem where
  order_id : String
  product_id : String
  product_name : String
  product_image : Option String
  price : Rat
  quantity : Int
  deriving DecidableEq, Repr

/-- Status enumeration of the `Notification` interface. -/
inductive NotificationStatus where
  | pending | sent | failed
  deriving DecidableEq, Repr

/-- Model of the `Notification` row (the opaque `content` payload is
omitted). -/
structure Notification where
  id : String
  email : String
  type : String
  order_id : Option String
  status : NotificationStatus
  deriving DecidableEq, Repr

/-- The state `createOrder` acts on: the Local Cart Store, the remote tables,
the failure behaviour of the two remote inserts, and the clock and id supply
(`Date.now`, database-assigned ids). -/
structure StoreState where
  cart : List CartItem
  products : List Product
  orders : List Order
  order_items : List OrderItem
  notifications : List Notification
  orderInsertFails : Bool
  itemsInsertFails : Bool
  now : Nat
  genOrderId : String
  genCreatedAt : String
  deriving DecidableEq, Repr

/-- Model of `getProduct`: `.eq('id', id).single()` against the `products`
table; any remote error yields `null`, modelled as the lookup finding no
row. -/
def getProduct (st : StoreState) (id : String) : Option Product :=
  st.products.find? (fun p => p.id == id)

/-- Model of `getCartItems` (the Cart Assembly Service): reads the stored
cart and attaches each product detail fetched via `getProduct`; a failed
lookup leaves the `product` field absent. -/
def getCartItems (st : StoreState) : List CartItem :=
  st.cart.map (fun item => { item with product := getProduct st item.product_id })

/-- The per-item summand of the subtotal reduction of `createOrder`:
`Number(item.product?.price || 0) * item.quantity`. -/
def itemAmount (item : CartItem) : Rat :=
  (match item.product with
   | some p => p.price
   | none => 0) * (item.quantity : Rat)

/-- The subtotal reduction of `createOrder`:
`cartItems.reduce((sum, item) => sum + ..., 0)`. -/
def orderSubtotal (cartItems : List CartItem) : Rat :=
  cartItems.foldl (fun sum item => sum + itemAmount item) 0

/-- The shipping cost rule of `createOrder`: `subtotal > 500 ? 0 : 40`. -/
def shippingCost (subtotal : Rat) : Rat :=
  if subtotal > 500 then 0 else 40

/-- The `orders` row built by `createOrder` (insert payload plus the
database-assigned `id` and `created_at`). -/
def mkOrder (shippingAddress : ShippingAddress) (paymentDetails : PaymentDetails)
    (st : StoreState) (subtotal : Rat) : Order :=
  { id := st.genOrderId
    created_at := st.genCreatedAt
    order_number := "ORD-" ++ toString st.now
    shipping_name := shippingAddress.name
    shipping_phone := shippingAddress.phone
    shipping_address := shippingAddress.address
    shipping_city := shippingAddress.city
    shipping_state := shippingAddress.state
    shipping_pincode := shippingAddress.pincode
    subtotal := subtotal
    shipping_cost := shippingCost subtotal
    total := subtotal + shippingCost subtotal
    status := OrderStatus.pending
    payment_method := paymentDetails.method
    payment_status := paymentDetails.status
    transaction_id := paymentDetails.transactionId }

/-- The `order_items` payload of `createOrder`: `cartItems.map(item => ...)`
reads `item.product!.name` with a non-null assertion, so an item whose
product lookup failed makes the whole map throw a `TypeError` (modelled as
`none`). -/
def buildOrderItems (orderId : String) (cartItems : List CartItem) :
    Option (List OrderItem) :=
  cartItems.mapM (fun item =>
    item.product.map (fun p =>
      ({ order_id := orderId
         product_id := item.product_id
         product_name := p.name
         product_image := p.images.head?
         price := p.price
         quantity := item.quantity } : OrderItem)))

/-- Model of `createOrder`.  Mirrors the source line by line: read the raw
stored cart and throw on empty; assemble cart items with product details;
compute subtotal, shipping cost and total; insert the order row (throwing on
a remote error); build the order-item snapshots (throwing a `TypeError` when
a product is absent); insert them, logging and continuing on a remote error;
clear the cart; return the order.  The returned state is the state reached
when the function returns or throws. -/
def createOrder (shippingAddress : ShippingAddress)
    (paymentDetails : PaymentDetails) (st : StoreState) :
    Except String Order × StoreState :=
  let cart := st.cart
  if cart.length = 0 then
    (Except.error "Cart is empty", st)
  else
    let cartItems := getCartItems st
    let subtotal := orderSubtotal cartItems
    if st.orderInsertFails then
      (Except.error "Failed to create order", st)
    else
      let order := mkOrder shippingAddress paymentDetails st subtotal
      let st1 := { st with orders := st.orders ++ [order] }
      match buildOrderItems order.id cartItems with
      | none =>
        (Except.error "TypeError: cannot read properties of undefined", st1)
      | some orderItemsData =>
        let st2 :=
          if st.itemsInsertFails then st1
          else { st1 with order_items := st1.order_items ++ orderItemsData }
        let st3 := { st2 with cart := clearCart }
        (Except.ok order, st3)

/-- Model of `getProducts` restricted to the category-filter logic: when the
slug is non-empty and not `"all"`, the code resolves it with
`.eq('slug', slug).single()` (which errors unless exactly one row matches)
and filters by `category_id` only when the resolution succeeded; the Fuse.js
ranking stage, an external library, is abstracted as `ranker` and applied
only to a non-empty search query. -/
def getProducts (ranker : String → List Product → List Product)
    (categories : List Category) (products : List Product)
    (categorySlug : String) (searchQuery : String) : List Product :=
  let base :=
    if categorySlug != "" && categorySlug != "all" then
      match categories.filter (fun c => c.slug == categorySlug) with
      | [cat] => products.filter (fun p => p.category_id == some cat.id)
      | _ => products
    else
      products
  if searchQuery != "" then ranker searchQuery base else base

/-! Concrete data used by witnesses and concrete runs. -/

/-- Example shipping address. -/
def exAddr : ShippingAddress :=
  { name := "Asha", phone := "999", address := "12 Lane", city := "Pune",
    state := "MH", pincode := "411001" }

/-- Example payment details. -/
def exPay : PaymentDetails :=
  { method := "card", status := "paid", transactionId := some "tx1" }

/-- Example catalog product. -/
def exProduct : Product :=
  { id := "p1", name := "Widget", price := 100, images := ["img1"],
    category_id := some "c1" }

/-- Example base state: empty cart, one catalog product, no failures. -/
def exBase : StoreState :=
  { cart := [], products := [exProduct], orders := [], order_items := [],
    notifications := [], orderInsertFails := false, itemsInsertFails := false,
    now := 7, genOrderId := "o1", genCreatedAt := "t1" }

/-! Theorems settling the claims. -/

/-- C1: on an empty stored cart, `createOrder` throws the validation error
`"Cart is empty"` and returns with the state it started from, so no order
row, order-item row or notification row is written and the Local Cart Store
is unchanged. -/
theorem createOrder_empty_cart_no_writes (addr : ShippingAddress)
    (pay : PaymentDetails) (st : StoreState) (h : st.cart = []) :
    createOrder addr pay st = (Except.error "Cart is empty", st) := by
  simp [createOrder, h]

/-- Witness for C1: a concrete empty-cart run. -/
theorem createOrder_empty_cart_no_writes_witness :
    exBase.cart = [] ∧
      createOrder exAddr exPay exBase = (Except.error "Cart is empty", exBase) :=
  ⟨rfl, createOrder_empty_cart_no_writes exAddr exPay exBase rfl⟩

/-- C9: the storage read is total (it is a Lean function, so it never
raises and always returns a list of cart items); an absent slot yields the
empty list and any parse failure yields the empty list. -/
theorem getCartFromStorage_safe (parse : String → Option (List CartItem)) :
    getCartFromStorage parse none = [] ∧
      ∀ s : String, parse s = none → getCartFromStorage parse (some s) = [] := by
  refine ⟨rfl, fun s hs => ?_⟩
  simp [getCartFromStorage, hs]

/-- Witness for C9: a parse function that always fails, applied to an absent
slot and to unparsable content. -/
theorem getCartFromStorage_safe_witness :
    getCartFromStorage (fun _ => none) none = [] ∧
      getCartFromStorage (fun _ => none) (some "garbage") = [] :=
  ⟨(getCartFromStorage_safe (fun _ => none)).1,
    (getCartFromStorage_safe (fun _ => none)).2 "garbage" rfl⟩

/-- C8: when no category carries the requested slug, the `.single()` slug
resolution fails, the category filter is skipped, and `getProducts` returns
the unfiltered product list. -/
theorem getProducts_unresolved_slug (ranker : String → List Product → List Product)
    (categories : List Category) (products : List Product) (slug : String)
    (h : ∀ c ∈ categories, c.slug ≠ slug) :
    getProducts ranker categories products slug "" = products := by
  have hfil : categories.filter (fun c => c.slug == slug) = [] := by
    rw [List.filter_eq_nil_iff]
    intro c hc
    simpa using h c hc
  unfold getProducts
  rw [hfil]
  split <;> rfl

/-- Witness for C8: a slug matching no category returns the whole catalog. -/
theorem getProducts_unresolved_slug_witness :
    getProducts (fun _ l => l) [{ id := "c1", name := "Shoes", slug := "shoes" }]
        [exProduct] "nosuch" "" = [exProduct] :=
  getProducts_unresolved_slug (fun _ l => l) _ [exProduct] "nosuch"
    (by decide)

/-- Example state whose cart holds two units of the catalog product. -/
def exCartState : StoreState :=
  { exBase with cart := [{ id := "a", product_id := "p1", quantity := 2 }] }

/-- The order row a successful run on `exCartState` writes. -/
def exOrder : Order :=
  mkOrder exAddr exPay exCartState (orderSubtotal (getCartItems exCartState))

/-- The subtotal reduction of `createOrder` (a left fold starting at `0`)
equals the sum of the per-item amounts. -/
theorem orderSubtotal_eq_sum (items : List CartItem) :
    orderSubtotal items = (items.map itemAmount).sum := by
  rw [orderSubtotal, List.sum_eq_foldl, List.foldl_map]

/-- On a non-empty cart with a succeeding order insert, the one row appended
to the `orders` table by `createOrder` is `mkOrder` applied to the computed
subtotal, in every branch of the remainder of the run. -/
theorem createOrder_orders_row (addr : ShippingAddress) (pay : PaymentDetails)
    (st : StoreState) (o : Order)
    (hcart : st.cart ≠ [])
    (hins : st.orderInsertFails = false)
    (ho : ((createOrder addr pay st).2).orders = st.orders ++ [o]) :
    o = mkOrder addr pay st (orderSubtotal (getCartItems st)) := by
  have hlen : ¬ st.cart.length = 0 := by
    simpa [List.length_eq_zero] using hcart
  simp only [createOrder, hins, if_neg hlen, Bool.false_eq_true, if_false] at ho
  split at ho
  · have := List.append_cancel_left ho
    simpa using this.symm
  · split at ho <;>
    · have := List.append_cancel_left ho
      simpa using this.symm

/-- C2: for every non-empty cart whose order insert succeeds, the order row
written by `createOrder` has `shipping_cost = 40` when the subtotal is at
most `500`, `shipping_cost = 0` when the subtotal exceeds `500`, and its
total always equals `subtotal + shipping_cost`. -/
theorem createOrder_shipping_cost_total (addr : ShippingAddress)
    (pay : PaymentDetails) (st : StoreState) (o : Order)
    (hcart : st.cart ≠ [])
    (hins : st.orderInsertFails = false)
    (ho : ((createOrder addr pay st).2).orders = st.orders ++ [o]) :
    (o.subtotal ≤ 500 → o.shipping_cost = 40) ∧
      (500 < o.subtotal → o.shipping_cost = 0) ∧
      o.total = o.subtotal + o.shipping_cost := by
  have hm := createOrder_orders_row addr pay st o hcart hins ho
  subst hm
  refine ⟨fun hle => ?_, fun hgt => ?_, rfl⟩
  · simp only [mkOrder] at hle ⊢
    rw [shippingCost, if_neg (not_lt.mpr hle)]
  · simp only [mkOrder] at hgt ⊢
    rw [shippingCost, if_pos hgt]

/-- Witness for C2: the concrete successful run on `exCartState` writes the
row `exOrder`, whose subtotal `200` is within the threshold. -/
theorem createOrder_shipping_cost_total_witness :
    (exOrder.subtotal ≤ 500 → exOrder.shipping_cost = 40) ∧
      (500 < exOrder.subtotal → exOrder.shipping_cost = 0) ∧
      exOrder.total = exOrder.subtotal + exOrder.shipping_cost :=
  createOrder_shipping_cost_total exAddr exPay exCartState exOrder
    (by decide) rfl rfl

/-- C3: for every non-empty cart whose order insert succeeds, the subtotal of
the order row written by `createOrder` equals the sum, over the assembled
cart items, of the product price (`0` for an unresolved product, matching
`item.product?.price || 0` in the source) times the quantity. -/
theorem createOrder_subtotal_sum (addr : ShippingAddress)
    (pay : PaymentDetails) (st : StoreState) (o : Order)
    (hcart : st.cart ≠ [])
    (hins : st.orderInsertFails = false)
    (ho : ((createOrder addr pay st).2).orders = st.orders ++ [o]) :
    o.subtotal = ((getCartItems st).map (fun item =>
      (match item.product with
       | some p => p.price
       | none => 0) * (item.quantity : Rat))).sum := by
  have hm := createOrder_orders_row addr pay st o hcart hins ho
  subst hm
  show orderSubtotal (getCartItems st) = _
  rw [orderSubtotal_eq_sum]
  rfl

/-- Witness for C3: on the concrete run, the subtotal `200` is the sum
`100 * 2` over the single assembled item. -/
theorem createOrder_subtotal_sum_witness :
    exOrder.subtotal = ((getCartItems exCartState).map (fun item =>
      (match item.product with
       | some p => p.price
       | none => 0) * (item.quantity : Rat))).sum :=
  createOrder_subtotal_sum exAddr exPay exCartState exOrder
    (by decide) rfl rfl

/-- C4: whenever `createOrder` returns without throwing, the Local Cart Store
of the resulting state is the empty list; the proof never inspects
`itemsInsertFails`, so this holds whether the line-item insert succeeded or
failed. -/
theorem createOrder_success_clears_cart (addr : ShippingAddress)
    (pay : PaymentDetails) (st : StoreState)
    (h : ((createOrder addr pay st).1).isOk = true) :
    ((createOrder addr pay st).2).cart = [] := by
  by_cases h0 : st.cart.length = 0
  · simp [createOrder, h0, Except.isOk, Except.toBool] at h
  · by_cases h1 : st.orderInsertFails = true
    · simp [createOrder, h0, h1, Except.isOk, Except.toBool] at h
    · rcases hb : buildOrderItems (mkOrder addr pay st (orderSubtotal (getCartItems st))).id
          (getCartItems st) with _ | items
      · simp [createOrder, h0, h1, hb, Except.isOk, Except.toBool] at h
      · simp [createOrder, h0, h1, hb, clearCart]

/-- Example state for C4: the line-item insert is set to fail. -/
def exItemsFailState : StoreState :=
  { exCartState with itemsInsertFails := true }

/-- Witness for C4: a concrete run in which the line-item insert fails still
returns successfully and leaves the stored cart empty. -/
theorem createOrder_success_clears_cart_witness :
    ((createOrder exAddr exPay exItemsFailState).2).cart = [] :=
  createOrder_success_clears_cart exAddr exPay exItemsFailState rfl

/-- Bumping the first entry matching a product id changes no product id. -/
theorem bumpFirst_map_product_id (pid : String) (q : Int) (l : List CartItem) :
    (bumpFirst pid q l).map (fun it => it.product_id) =
      l.map (fun it => it.product_id) := by
  induction l with
  | nil => rfl
  | cons x xs ih =>
    by_cases hx : (x.product_id == pid) = true
    · simp [bumpFirst, hx]
    · simp only [Bool.not_eq_true] at hx
      simp [bumpFirst, hx, ih]

/-- Bumping skips over a block of entries none of which match. -/
theorem bumpFirst_append_of_no_match (pid : String) (q : Int)
    (l l2 : List CartItem) (h : ∀ it ∈ l, it.product_id ≠ pid) :
    bumpFirst pid q (l ++ l2) = l ++ bumpFirst pid q l2 := by
  induction l with
  | nil => rfl
  | cons x xs ih =>
    have hx : (x.product_id == pid) = false := by
      simpa using h x (List.mem_cons_self x xs)
    simp only [List.cons_append, bumpFirst, hx, Bool.false_eq_true, if_false,
      List.cons.injEq, true_and]
    exact ih (fun it hit => h it (List.mem_cons_of_mem _ hit))

/-- C5: starting from a cart without the product, two `addToCart` calls for
the same product id leave exactly one stored entry for it, carrying the id of
the first call and the accumulated quantity; and `addToCart` preserves
distinctness of stored product ids, so it never creates a duplicate entry. -/
theorem addToCart_accumulates (cart : List CartItem) (id1 id2 pid : String)
    (q1 q2 : Int) (hno : ∀ it ∈ cart, it.product_id ≠ pid) :
    ((addToCart id2 pid q2 (addToCart id1 pid q1 cart)).filter
        (fun it => it.product_id == pid) =
      [{ id := id1, product_id := pid, quantity := q1 + q2 }]) ∧
    ∀ (cart2 : List CartItem) (newId pid2 : String) (q : Int),
      (cart2.map (fun it => it.product_id)).Nodup →
      ((addToCart newId pid2 q cart2).map (fun it => it.product_id)).Nodup := by
  constructor
  · have hany : cart.any (fun it => it.product_id == pid) = false := by
      simp only [List.any_eq_false, beq_iff_eq]
      exact hno
    have h1 : addToCart id1 pid q1 cart =
        cart ++ [{ id := id1, product_id := pid, quantity := q1 }] := by
      simp [addToCart, hany]
    rw [h1]
    have h2 : addToCart id2 pid q2
        (cart ++ [{ id := id1, product_id := pid, quantity := q1 }]) =
        cart ++ [{ id := id1, product_id := pid, quantity := q1 + q2 }] := by
      have hany2 : (cart ++
          [({ id := id1, product_id := pid, quantity := q1 } : CartItem)]).any
          (fun it => it.product_id == pid) = true := by
        simp [List.any_append]
      rw [addToCart, hany2, if_pos rfl,
        bumpFirst_append_of_no_match pid q2 cart _ hno]
      simp [bumpFirst]
    rw [h2, List.filter_append]
    have hnil : cart.filter (fun it => it.product_id == pid) = [] := by
      rw [List.filter_eq_nil_iff]
      intro it hit
      simpa using hno it hit
    simp [hnil]
  · intro cart2 newId pid2 q hnd
    by_cases hany : cart2.any (fun it => it.product_id == pid2) = true
    · rw [addToCart, hany, if_pos rfl, bumpFirst_map_product_id]
      exact hnd
    · simp only [Bool.not_eq_true] at hany
      rw [addToCart, hany]
      simp only [Bool.false_eq_true, if_false, List.map_append, List.map_cons,
        List.map_nil]
      have hnotin : pid2 ∉ cart2.map (fun it => it.product_id) := by
        simp only [List.any_eq_false, beq_iff_eq] at hany
        simp only [List.mem_map]
        rintro ⟨it, hit, hid⟩
        exact hany it hit hid
      simp [List.nodup_append, hnd, hnotin]

/-- Witness for C5: adding 2 then 3 of the same product to an empty cart
stores a single entry of quantity 5. -/
theorem addToCart_accumulates_witness :
    (addToCart "id2" "p" 3 (addToCart "id1" "p" 2 ([] : List CartItem))).filter
        (fun it => it.product_id == "p") =
      [{ id := "id1", product_id := "p", quantity := 2 + 3 }] :=
  (addToCart_accumulates [] "id1" "id2" "p" 2 3 (by decide)).1

/-- When stored ids are distinct, every entry of the overwritten cart that
carries the requested id carries the requested quantity. -/
theorem setFirstQuantity_all_eq (iid : String) (q : Int) :
    ∀ (l : List CartItem), (l.map (fun it => it.id)).Nodup →
      ∀ it ∈ setFirstQuantity iid q l, it.id = iid → it.quantity = q := by
  intro l
  induction l with
  | nil => intro _; simp [setFirstQuantity]
  | cons x xs ih =>
    intro hnd
    simp only [List.map_cons, List.nodup_cons] at hnd
    intro it hit hid
    by_cases hx : (x.id == iid) = true
    · have hxid : x.id = iid := by simpa using hx
      simp only [setFirstQuantity, hx, if_true] at hit
      rcases List.mem_cons.mp hit with rfl | hmem
      · rfl
      · exact absurd (List.mem_map.mpr ⟨it, hmem, by rw [hid, hxid]⟩) hnd.1
    · simp only [setFirstQuantity, hx, Bool.false_eq_true, if_false] at hit
      rcases List.mem_cons.mp hit with rfl | hmem
      · exact absurd hid (by simpa using hx)
      · exact ih hnd.2 it hmem hid

/-- Overwriting keeps an entry with the requested id present. -/
theorem setFirstQuantity_exists (iid : String) (q : Int) :
    ∀ (l : List CartItem), (∃ it ∈ l, it.id = iid) →
      ∃ it ∈ setFirstQuantity iid q l, it.id = iid := by
  intro l
  induction l with
  | nil => intro h; simp at h
  | cons x xs ih =>
    intro h
    by_cases hx : (x.id == iid) = true
    · refine ⟨{ x with quantity := q }, ?_, by simpa using hx⟩
      simp [setFirstQuantity, hx]
    · obtain ⟨it, hit, hid⟩ := h
      rcases List.mem_cons.mp hit with rfl | hmem
      · exact absurd hid (by simpa using hx)
      · obtain ⟨it2, hit2, hid2⟩ := ih ⟨it, hmem, hid⟩
        refine ⟨it2, ?_, hid2⟩
        simp only [setFirstQuantity, hx, Bool.false_eq_true, if_false]
        exact List.mem_cons_of_mem _ hit2

/-- C6: a quantity of at most zero removes every stored entry with the given
item id; a positive quantity, on a store with distinct ids that contains the
item, keeps the item present and leaves exactly the requested quantity on it
(an idempotent overwrite). -/
theorem updateCartItemQuantity_removes_or_overwrites (cart : List CartItem)
    (iid : String) (q : Int) :
    (q ≤ 0 → ∀ it ∈ updateCartItemQuantity iid q cart, it.id ≠ iid) ∧
    (0 < q → (cart.map (fun it => it.id)).Nodup → (∃ it ∈ cart, it.id = iid) →
      (∃ it ∈ updateCartItemQuantity iid q cart, it.id = iid) ∧
      ∀ it ∈ updateCartItemQuantity iid q cart, it.id = iid →
        it.quantity = q) := by
  constructor
  · intro hq it hit
    unfold updateCartItemQuantity at hit
    rw [if_pos hq] at hit
    split at hit
    · have := List.of_mem_filter hit
      simpa using this
    · next hany =>
      intro heq
      exact hany (List.any_eq_true.mpr ⟨it, hit, by simpa using heq⟩)
  · intro hq hnd hex
    have hany : cart.any (fun i => i.id == iid) = true := by
      obtain ⟨it, hit, hid⟩ := hex
      exact List.any_eq_true.mpr ⟨it, hit, by simpa using hid⟩
    unfold updateCartItemQuantity
    rw [hany, if_pos rfl, if_neg (not_le.mpr hq)]
    exact ⟨setFirstQuantity_exists iid q cart hex,
      setFirstQuantity_all_eq iid q cart hnd⟩

/-- Witness for C6: on a one-item cart, quantity 0 removes the item and
quantity 5 overwrites it to exactly 5. -/
theorem updateCartItemQuantity_removes_or_overwrites_witness :
    (∀ it ∈ updateCartItemQuantity "a" 0
        [({ id := "a", product_id := "p", quantity := 2 } : CartItem)],
      it.id ≠ "a") ∧
    ∀ it ∈ updateCartItemQuantity "a" 5
        [({ id := "a", product_id := "p", quantity := 2 } : CartItem)],
      it.id = "a" → it.quantity = 5 :=
  ⟨(updateCartItemQuantity_removes_or_overwrites
      [{ id := "a", product_id := "p", quantity := 2 }] "a" 0).1 (by decide),
    ((updateCartItemQuantity_removes_or_overwrites
      [{ id := "a", product_id := "p", quantity := 2 }] "a" 5).2
      (by decide) (by decide) (by decide)).2⟩

/-- Counterexample for C7 as stated: the empty store satisfies the positive
quantity invariant, yet `addToCart` invoked with quantity `0` (the code never
guards its `quantity` argument) produces a stored entry of quantity `0`. -/
theorem cartOps_invariant_counterexample :
    (∀ it ∈ ([] : List CartItem), 0 < it.quantity) ∧
    ¬ (∀ it ∈ addToCart "1" "p" 0 ([] : List CartItem), 0 < it.quantity) := by
  decide

/-- Bumping a positive amount onto a store of positive quantities keeps all
quantities positive. -/
theorem bumpFirst_pos (pid : String) (q : Int) (hq : 0 < q) :
    ∀ (l : List CartItem), (∀ it ∈ l, 0 < it.quantity) →
      ∀ it ∈ bumpFirst pid q l, 0 < it.quantity := by
  intro l
  induction l with
  | nil => intro _; simp [bumpFirst]
  | cons x xs ih =>
    intro hinv it hit
    by_cases hx : (x.product_id == pid) = true
    · simp only [bumpFirst, hx, if_true] at hit
      rcases List.mem_cons.mp hit with rfl | hmem
      · exact add_pos (hinv x (List.mem_cons_self x xs)) hq
      · exact hinv it (List.mem_cons_of_mem _ hmem)
    · simp only [bumpFirst, hx, Bool.false_eq_true, if_false] at hit
      rcases List.mem_cons.mp hit with heq | hmem
      · subst heq
        exact hinv _ (List.mem_cons_self _ _)
      · exact ih (fun i hi => hinv i (List.mem_cons_of_mem _ hi)) it hmem

/-- Every entry of the overwritten cart either carries the new quantity or
was already stored. -/
theorem setFirstQuantity_mem_cases (iid : String) (q : Int) :
    ∀ (l : List CartItem), ∀ it ∈ setFirstQuantity iid q l,
      it.quantity = q ∨ it ∈ l := by
  intro l
  induction l with
  | nil => simp [setFirstQuantity]
  | cons x xs ih =>
    intro it hit
    by_cases hx : (x.id == iid) = true
    · simp only [setFirstQuantity, hx, if_true] at hit
      rcases List.mem_cons.mp hit with rfl | hmem
      · left; rfl
      · right; exact List.mem_cons_of_mem _ hmem
    · simp only [setFirstQuantity, hx, Bool.false_eq_true, if_false] at hit
      rcases List.mem_cons.mp hit with heq | hmem
      · right
        subst heq
        exact List.mem_cons_self _ _
      · rcases ih it hmem with hq2 | hmem2
        · left; exact hq2
        · right; exact List.mem_cons_of_mem _ hmem2

/-- C7 as amended: provided `addToCart` is invoked with a positive quantity
(the code does not guard this argument), every cart operation preserves the
invariant that each stored entry has a positive quantity;
`updateCartItemQuantity`, `removeFromCart` and `clearCart` preserve it for
every argument. -/
theorem cart_ops_preserve_positive_quantity (cart : List CartItem)
    (hinv : ∀ it ∈ cart, 0 < it.quantity) :
    (∀ (newId productId : String) (q : Int), 0 < q →
      ∀ it ∈ addToCart newId productId q cart, 0 < it.quantity) ∧
    (∀ (itemId : String) (q : Int),
      ∀ it ∈ updateCartItemQuantity itemId q cart, 0 < it.quantity) ∧
    (∀ itemId : String, ∀ it ∈ removeFromCart itemId cart, 0 < it.quantity) ∧
    (∀ it ∈ clearCart, 0 < it.quantity) := by
  refine ⟨?_, ?_, ?_, by simp [clearCart]⟩
  · intro newId productId q hq it hit
    unfold addToCart at hit
    split at hit
    · exact bumpFirst_pos productId q hq cart hinv it hit
    · rcases List.mem_append.mp hit with h | h
      · exact hinv it h
      · simp only [List.mem_singleton] at h
        subst h
        exact hq
  · intro itemId q it hit
    unfold updateCartItemQuantity at hit
    split at hit
    · split at hit
      · exact hinv it (List.mem_of_mem_filter hit)
      · next hq =>
        rcases setFirstQuantity_mem_cases itemId q cart it hit with hq2 | hmem
        · rw [hq2]
          exact not_le.mp hq
        · exact hinv it hmem
    · exact hinv it hit
  · intro itemId it hit
    exact hinv it (List.mem_of_mem_filter hit)

/-- Witness for C7 as amended: a positive add onto an invariant-satisfying
store keeps all quantities positive. -/
theorem cart_ops_preserve_positive_quantity_witness :
    (0 : Int) < 3 ∧
      ∀ it ∈ addToCart "b" "p2" 3
          [({ id := "a", product_id := "p", quantity := 2 } : CartItem)],
        0 < it.quantity :=
  ⟨by decide,
    (cart_ops_preserve_positive_quantity
        [{ id := "a", product_id := "p", quantity := 2 }]
        (by decide)).1 "b" "p2" 3 (by decide)⟩

/-- Example state for C10: the single cart item references a product id that
is absent from the catalog, so its lookup fails. -/
def exMissingProductState : StoreState :=
  { exBase with cart := [{ id := "a", product_id := "p2", quantity := 2 }] }

/-- C10: on a concrete non-empty cart holding an item whose product lookup
returns absent, `createOrder` throws while building the order-item snapshots,
after the order row is committed: the run ends in an error, exactly one order
row was added, no order-item rows were written, and the Local Cart Store
still holds the original non-empty cart. -/
theorem createOrder_missing_product_partial_write :
    ((createOrder exAddr exPay exMissingProductState).1 =
        Except.error "TypeError: cannot read properties of undefined") ∧
      ((createOrder exAddr exPay exMissingProductState).2).orders.length =
        exMissingProductState.orders.length + 1 ∧
      ((createOrder exAddr exPay exMissingProductState).2).order_items =
        exMissingProductState.order_items ∧
      ((createOrder exAddr exPay exMissingProductState).2).cart =
        exMissingProductState.cart ∧
      exMissingProductState.cart ≠ [] :=
  ⟨rfl, by decide, by decide, by decide, by decide⟩

end Flipkart
